import Mathlib

/-!
Verification of the framing layer (`pymodbus/framer/base.py` and
`pymodbus/framer/rtu.py`).

Bytes are modelled as `List Nat` (each element a byte value `< 256`), machine
integers as `Nat` with explicit masking where the source masks.  The mutable
attributes of a framer object (`incoming_dev_id`, `incoming_tid`,
`databuffer`) are modelled as an explicit state record that is threaded
through the operations.  Python's fallible operations (`int.to_bytes`,
tuple unpacking, `raise`) are modelled with `Option`/`Except`-style results.
-/

/-- Byte strings: lists of byte values. -/
abbrev Bytes := List Nat

/-- The inner 8-step loop of `FramerRTU.generate_crc16_table` (rtu.py lines
66-73): state is the remaining iteration count, the shifted `byte`, and the
running `crc`. -/
def crcEntryAux : Nat → Nat → Nat → Nat
  | 0, _, crc => crc
  | n+1, byte, crc =>
    if (byte ^^^ crc) &&& 1 = 1 then crcEntryAux n (byte >>> 1) ((crc >>> 1) ^^^ 0xA001)
    else crcEntryAux n (byte >>> 1) (crc >>> 1)

/-- `FramerRTU.generate_crc16_table` (rtu.py lines 59-75): one entry per
byte value `0..255`, each produced by the 8-step loop started at `crc = 0`. -/
def FramerRTU.generate_crc16_table : List Nat :=
  (List.range 256).map (fun byte => crcEntryAux 8 byte 0)

/-- `FramerRTU.crc16_table` after module initialisation (rtu.py line 121). -/
def FramerRTU.crc16_table : List Nat := FramerRTU.generate_crc16_table

/-- The loop body of `FramerRTU.compute_CRC` (rtu.py lines 115-117):
`idx = table[(crc ^ byte) & 0xFF]; crc = ((crc >> 8) & 0xFF) ^ idx`. -/
def crcTableStep (crc data_byte : Nat) : Nat :=
  ((crc >>> 8) &&& 0xFF) ^^^ FramerRTU.crc16_table.getD ((crc ^^^ data_byte) &&& 0xFF) 0

/-- `FramerRTU.compute_CRC` (rtu.py lines 104-119): table-driven CRC seeded
at `0xFFFF`, with the final result byte-swapped exactly as in line 118. -/
def FramerRTU.compute_CRC (data : Bytes) : Nat :=
  let crc := data.foldl crcTableStep 0xFFFF
  ((crc <<< 8) &&& 0xFF00) ||| ((crc >>> 8) &&& 0x00FF)

/-- Modelled from the spec (reference algorithm of spec section 4.1, used as the
second side of the refinement claim): one bit iteration of the running
register -- if the low bit is 1, shift right and XOR with `0xA001`, else
shift right. -/
def crcBitIter : Nat → Nat → Nat
  | 0, crc => crc
  | n+1, crc => crcBitIter n (if crc &&& 1 = 1 then (crc >>> 1) ^^^ 0xA001 else crc >>> 1)

/-- Modelled from the spec (section 4.1): per input byte, XOR the byte into the
low byte of the running register, then run 8 bit iterations. -/
def crcBitStep (crc b : Nat) : Nat := crcBitIter 8 (crc ^^^ b)

/-- Modelled from the spec (section 4.1): byte swap of a 16-bit value -- high
and low bytes exchanged. -/
def swap16 (c : Nat) : Nat := (c % 256) * 256 + c / 256

/-- Modelled from the spec (section 4.1): the bitwise reference CRC-16,
seeded at `0xFFFF`, with the final 16-bit result byte-swapped. -/
def crc16_spec (data : Bytes) : Nat := swap16 (data.foldl crcBitStep 0xFFFF)

/-- The mutable per-connection attributes of a framer object set up in
`FramerBase.__init__` (base.py lines 31-33). -/
structure FramerState where
  incoming_dev_id : Nat
  incoming_tid : Nat
  databuffer : Bytes
deriving DecidableEq, Repr

/-- Modelled from the spec: `FramerBase.specific_decode` is abstract in the
source (base.py lines 51-58, declaration only); a concrete variant receives
the buffered data and its length and returns the updated correlation state
together with `(used_len, res_data)`. -/
def SpecificDecode : Type := FramerState → Bytes → Nat → FramerState × Nat × Bytes

/-- `FramerBase.decode` (base.py lines 35-49), parameterised by the
variant's `MIN_SIZE` and its `specific_decode`: below `MIN_SIZE` it returns
`(0, EMPTY)` untouched; otherwise it runs `specific_decode` and, if the
resulting payload is empty, zeroes `incoming_dev_id` and `incoming_tid`. -/
def FramerBase.decode (min_size : Nat) (sd : SpecificDecode) (s : FramerState)
    (data : Bytes) : FramerState × Nat × Bytes :=
  if data.length < min_size then (s, 0, [])
  else
    match sd s data data.length with
    | (s1, used_len, res_data) =>
      if res_data = [] then
        ({ s1 with incoming_dev_id := 0, incoming_tid := 0 }, used_len, res_data)
      else (s1, used_len, res_data)

/-- Result of a `processIncomingPacket` run: normal return, a raised
`ModbusIOException` (base.py line 110), or exhausted fuel (the source loop
is `while True`, so the model is fuelled).  `dispatched` records the
arguments of the `callback` invocations: the frame payload handed to the
message decoder, stamped with `slave_id` and `transaction_id`
(base.py lines 111-112, 118). -/
inductive ProcResult where
  | ok (s : FramerState) (dispatched : List (Bytes × Nat × Nat))
  | raised (s : FramerState) (dispatched : List (Bytes × Nat × Nat))
  | outOfFuel (s : FramerState) (dispatched : List (Bytes × Nat × Nat))
deriving DecidableEq, Repr

/-- The `while True` loop of `FramerBase.processIncomingPacket` (base.py
lines 96-118).  `decoder_ok data` models whether `self.decoder.decode(data)`
returns a message (`true`) or `None` (`false`). -/
def processLoop (min_size : Nat) (sd : SpecificDecode) (decoder_ok : Bytes → Bool)
    (slave : List Nat) (tid : Nat) :
    Nat → FramerState → List (Bytes × Nat × Nat) → ProcResult
  | 0, s, acc => .outOfFuel s acc
  | fuel+1, s, acc =>
    if s.databuffer = [] then .ok s acc
    else
      match FramerBase.decode min_size sd s s.databuffer with
      | (s1, used_len, data) =>
        let s2 := if used_len ≠ 0 then { s1 with databuffer := s1.databuffer.drop used_len }
          else s1
        if data = [] then .ok s2 acc
        else if slave ≠ [] ∧ ¬ (0 ∈ slave) ∧ ¬ (s2.incoming_dev_id ∈ slave) then
          processLoop min_size sd decoder_ok slave tid fuel { s2 with databuffer := [] } acc
        else if decoder_ok data = false then
          .raised { s2 with databuffer := [] } acc
        else
          let s3 := { s2 with databuffer := s2.databuffer.drop used_len }
          if tid ≠ 0 ∧ s2.incoming_tid ≠ 0 ∧ tid ≠ s2.incoming_tid then
            processLoop min_size sd decoder_ok slave tid fuel { s3 with databuffer := [] } acc
          else
            processLoop min_size sd decoder_ok slave tid fuel s3
              (acc ++ [(data, s2.incoming_dev_id, s2.incoming_tid)])

/-- `FramerBase.processIncomingPacket` (base.py lines 78-118): append the new
data to `databuffer`, return immediately on an empty buffer, otherwise run
the processing loop.  `slave` is already a list (the source normalises a
scalar to a one-element list); `tid = 0` models `tid=None`/`tid=0`, both
falsy in the source's `if tid and ...` test. -/
def processIncomingPacket (min_size : Nat) (sd : SpecificDecode)
    (decoder_ok : Bytes → Bool) (fuel : Nat) (s : FramerState) (data : Bytes)
    (slave : List Nat) (tid : Nat) : ProcResult :=
  let s1 := { s with databuffer := s.databuffer ++ data }
  if s1.databuffer = [] then .ok s1 []
  else processLoop min_size sd decoder_ok slave tid fuel s1 []

/-- `FramerRTU.MIN_SIZE` (rtu.py line 57). -/
def FramerRTU.MIN_SIZE : Nat := 5

/-- `FramerRTU.decode` (rtu.py lines 80-86): both branches return the
4-tuple `(0, 0, 0, b'')`. -/
def FramerRTU.decode (data : Bytes) : Nat × Nat × Nat × Bytes :=
  if data.length < FramerRTU.MIN_SIZE then (0, 0, 0, [])
  else (0, 0, 0, [])

/-- Big-endian digits of `n` in `len` bytes (the digit list produced by a
successful `int.to_bytes(len, 'big')`). -/
def beBytes : Nat → Nat → Bytes
  | 0, _ => []
  | l+1, n => (n / 256 ^ l) % 256 :: beBytes l n

/-- Python's `int.to_bytes(len, 'big')` on a non-negative int: fails
(`OverflowError`) unless the value fits in `len` bytes. -/
def to_bytes_be (len n : Nat) : Option Bytes :=
  if n < 256 ^ len then some (beBytes len n) else none

/-- `FramerRTU.encode` (rtu.py lines 89-92):
`packet = device_id.to_bytes(1,'big') + pdu;
return packet + compute_CRC(packet).to_bytes(2,'big')`. -/
def FramerRTU.encode (pdu : Bytes) (device_id : Nat) (_tid : Nat) : Option Bytes :=
  match to_bytes_be 1 device_id with
  | none => none
  | some db =>
    let packet := db ++ pdu
    match to_bytes_be 2 (FramerRTU.compute_CRC packet) with
    | none => none
    | some cb => some (packet ++ cb)

/-- A Python value as it appears in the decode result tuple: an int or a
bytes object. -/
inductive PyVal where
  | int (n : Nat)
  | bytes (b : Bytes)
deriving DecidableEq, Repr

/-- Python runtime errors relevant to the loop: the `ValueError` raised by
unpacking a tuple of the wrong arity, and the `ModbusIOException` raised at
base.py line 110. -/
inductive PyRuntimeError where
  | valueError
  | modbusIOException
deriving DecidableEq, Repr

/-- The value-level 4-tuple returned by `FramerRTU.decode`. -/
def FramerRTU.decodeTuple (data : Bytes) : List PyVal :=
  [.int (FramerRTU.decode data).1, .int (FramerRTU.decode data).2.1,
    .int (FramerRTU.decode data).2.2.1, .bytes (FramerRTU.decode data).2.2.2]

/-- Python's `used_len, data = t`: unpacking succeeds only when the tuple
has exactly two elements, otherwise a `ValueError` is raised. -/
def unpack2 : List PyVal → Except PyRuntimeError (PyVal × PyVal)
  | [a, b] => .ok (a, b)
  | _ => .error .valueError

/-- Result of running `processIncomingPacket` on a `FramerRTU` instance,
where the loop may terminate with a Python runtime error. -/
inductive RTUProcResult where
  | ok (s : FramerState) (dispatched : List (Bytes × Nat × Nat))
  | raised (e : PyRuntimeError) (s : FramerState) (dispatched : List (Bytes × Nat × Nat))
  | outOfFuel (s : FramerState) (dispatched : List (Bytes × Nat × Nat))
deriving DecidableEq, Repr

/-- The loop of `FramerBase.processIncomingPacket` as executed on a
`FramerRTU` instance: `self.decode` resolves to `FramerRTU.decode`
(rtu.py lines 80-86), whose 4-tuple result is unpacked into the two
variables `used_len, data` (base.py line 99). -/
def FramerRTU.processLoop (decoder_ok : Bytes → Bool) (slave : List Nat) (tid : Nat) :
    Nat → FramerState → List (Bytes × Nat × Nat) → RTUProcResult
  | 0, s, acc => .outOfFuel s acc
  | fuel+1, s, acc =>
    if s.databuffer = [] then .ok s acc
    else
      match unpack2 (FramerRTU.decodeTuple s.databuffer) with
      | .error e => .raised e s acc
      | .ok (.int used_len, .bytes data) =>
        let s2 := if used_len ≠ 0 then { s with databuffer := s.databuffer.drop used_len }
          else s
        if data = [] then .ok s2 acc
        else if slave ≠ [] ∧ ¬ (0 ∈ slave) ∧ ¬ (s2.incoming_dev_id ∈ slave) then
          FramerRTU.processLoop decoder_ok slave tid fuel { s2 with databuffer := [] } acc
        else if decoder_ok data = false then
          .raised .modbusIOException { s2 with databuffer := [] } acc
        else
          let s3 := { s2 with databuffer := s2.databuffer.drop used_len }
          if tid ≠ 0 ∧ s2.incoming_tid ≠ 0 ∧ tid ≠ s2.incoming_tid then
            FramerRTU.processLoop decoder_ok slave tid fuel { s3 with databuffer := [] } acc
          else
            FramerRTU.processLoop decoder_ok slave tid fuel s3
              (acc ++ [(data, s2.incoming_dev_id, s2.incoming_tid)])
      | .ok _ => .raised .valueError s acc

/-- `FramerBase.processIncomingPacket` as executed on a `FramerRTU`
instance. -/
def FramerRTU.processIncomingPacket (decoder_ok : Bytes → Bool) (fuel : Nat)
    (s : FramerState) (data : Bytes) (slave : List Nat) (tid : Nat) : RTUProcResult :=
  let s1 := { s with databuffer := s.databuffer ++ data }
  if s1.databuffer = [] then .ok s1 []
  else FramerRTU.processLoop decoder_ok slave tid fuel s1 []

/-- A `specific_decode` that never recognises a frame (used to instantiate
theorems about the generic driver). -/
def sdNone : SpecificDecode := fun s _ _ => (s, 0, [])

/-- A `specific_decode` that recognises the first 5 buffered bytes as a
frame addressed to device 1 (used to instantiate theorems about the
generic driver). -/
def sdFixed5 : SpecificDecode := fun s data _ => ({ s with incoming_dev_id := 1 }, 5, data.take 5)

/-- A `specific_decode` that recognises the first 5 buffered bytes as a
frame addressed to device 7 (used to instantiate theorems about the
generic driver). -/
def sdDev7 : SpecificDecode := fun s data _ => ({ s with incoming_dev_id := 7 }, 5, data.take 5)

lemma xor_shiftRight_one (x y : Nat) : (x ^^^ y) >>> 1 = (x >>> 1) ^^^ (y >>> 1) := by
  simp [Nat.shiftRight_one, Nat.xor_div_two]

lemma crcBitIter_xor_high : ∀ (n X h : Nat),
    crcBitIter n (X ^^^ h * 2 ^ n) = crcBitIter n X ^^^ h
  | 0, X, h => by simp [crcBitIter]
  | n+1, X, h => by
    have heven : (h * 2 ^ (n+1)) &&& 1 = 0 := by
      rw [Nat.and_one_is_mod, Nat.pow_succ, ← Nat.mul_assoc, Nat.mul_mod_left]
    have hbit : (X ^^^ h * 2 ^ (n+1)) &&& 1 = X &&& 1 := by
      rw [Nat.and_xor_distrib_right, heven, Nat.xor_zero]
    have hdiv : (h * 2 ^ (n+1)) >>> 1 = h * 2 ^ n := by
      rw [Nat.shiftRight_one, Nat.pow_succ, ← Nat.mul_assoc, Nat.mul_div_cancel]
      omega
    have hshift : (X ^^^ h * 2 ^ (n+1)) >>> 1 = (X >>> 1) ^^^ h * 2 ^ n := by
      rw [xor_shiftRight_one, hdiv]
    show crcBitIter n _ = crcBitIter n _ ^^^ h
    rw [hbit, hshift]
    by_cases hb : X &&& 1 = 1
    · simp only [hb, if_pos]
      rw [show (X >>> 1) ^^^ h * 2 ^ n ^^^ 0xA001
            = ((X >>> 1) ^^^ 0xA001) ^^^ h * 2 ^ n by
          rw [Nat.xor_assoc, Nat.xor_assoc, Nat.xor_comm (h * 2 ^ n)]]
      exact crcBitIter_xor_high n _ h
    · simp only [hb, if_neg, if_false]
      exact crcBitIter_xor_high n _ h

lemma recompose (c : Nat) : (c &&& 255) ^^^ (c >>> 8) * 2 ^ 8 = c := by
  have h255 : (255 : Nat) = 2 ^ 8 - 1 := by norm_num
  apply Nat.eq_of_testBit_eq
  intro i
  rw [Nat.testBit_xor, Nat.testBit_and, ← Nat.shiftLeft_eq, Nat.testBit_shiftLeft,
    Nat.testBit_shiftRight, h255, Nat.testBit_two_pow_sub_one]
  by_cases hi : i < 8
  · have h8 : ¬ (8 ≤ i) := by omega
    simp [hi, h8]
  · have h8 : 8 ≤ i := by omega
    have hadd : 8 + (i - 8) = i := by omega
    simp [hi, h8, hadd]

lemma crcBitIter8_split (c : Nat) :
    crcBitIter 8 c = (c >>> 8) ^^^ crcBitIter 8 (c &&& 255) := by
  conv_lhs => rw [← recompose c]
  rw [crcBitIter_xor_high, Nat.xor_comm]

lemma and255_eq_mod (x : Nat) : x &&& 255 = x % 256 := by
  have h255 : (255 : Nat) = 2 ^ 8 - 1 := by norm_num
  have h256 : (256 : Nat) = 2 ^ 8 := by norm_num
  apply Nat.eq_of_testBit_eq
  intro i
  rw [Nat.testBit_and, h255, h256, Nat.testBit_two_pow_sub_one, Nat.testBit_mod_two_pow,
    Bool.and_comm]

lemma or_eq_xor_of_and_eq_zero {a b : Nat} (h : a &&& b = 0) : a ||| b = a ^^^ b := by
  apply Nat.eq_of_testBit_eq
  intro i
  have hb : (a &&& b).testBit i = false := by rw [h]; exact Nat.zero_testBit i
  rw [Nat.testBit_and] at hb
  rw [Nat.testBit_or, Nat.testBit_xor]
  cases ha : a.testBit i <;> cases hbb : b.testBit i <;> simp_all

lemma mul256_and_eq_zero (a b : Nat) (h : b < 256) : (a * 256) &&& b = 0 := by
  apply Nat.eq_of_testBit_eq
  intro i
  rw [Nat.testBit_and, Nat.zero_testBit]
  by_cases hi : 8 ≤ i
  · have hb : b.testBit i = false := by
      apply Nat.testBit_lt_two_pow
      calc b < 256 := h
        _ = 2 ^ 8 := by norm_num
        _ ≤ 2 ^ i := Nat.pow_le_pow_right (by norm_num) hi
    simp [hb]
  · have ha : (a * 256).testBit i = false := by
      have h1 : a * 256 = a <<< 8 := by rw [Nat.shiftLeft_eq]
      rw [h1, Nat.testBit_shiftLeft]
      simp [hi]
    simp [ha]

lemma mul256_or_eq_add (a b : Nat) (h : b < 256) : (a * 256) ||| b = a * 256 + b := by
  rw [or_eq_xor_of_and_eq_zero (mul256_and_eq_zero a b h)]
  have hr := recompose (a * 256 + b)
  have hmod : (a * 256 + b) &&& 255 = b := by
    rw [and255_eq_mod]
    omega
  have hdiv : (a * 256 + b) >>> 8 = a := by
    rw [Nat.shiftRight_eq_div_pow]
    norm_num
    omega
  rw [hmod, hdiv] at hr
  rw [Nat.xor_comm] at hr
  calc a * 256 ^^^ b = a * 2 ^ 8 ^^^ b := by norm_num
    _ = a * 256 + b := hr

lemma and_shiftLeft_eq (a b n : Nat) : (a <<< n) &&& (b <<< n) = (a &&& b) <<< n := by
  apply Nat.eq_of_testBit_eq
  intro i
  rw [Nat.testBit_and, Nat.testBit_shiftLeft, Nat.testBit_shiftLeft, Nat.testBit_shiftLeft,
    Nat.testBit_and]
  by_cases hi : n ≤ i <;> simp [hi]

lemma swap_formula_eq (c : Nat) (hc : c < 65536) :
    ((c <<< 8) &&& 0xFF00) ||| ((c >>> 8) &&& 0x00FF) = swap16 c := by
  have h1 : (0xFF00 : Nat) = 255 <<< 8 := by decide
  have h2 : (c <<< 8) &&& 0xFF00 = (c &&& 255) <<< 8 := by
    rw [h1, and_shiftLeft_eq]
  have h3 : (c &&& 255) <<< 8 = (c % 256) * 256 := by
    rw [and255_eq_mod, Nat.shiftLeft_eq]
  have h4 : (c >>> 8) &&& 0x00FF = c / 256 := by
    show (c >>> 8) &&& 255 = c / 256
    rw [and255_eq_mod, Nat.shiftRight_eq_div_pow]
    norm_num
    omega
  rw [h2, h3, h4, swap16]
  exact mul256_or_eq_add _ _ (by omega)

lemma crcBitIter_lt : ∀ (n c : Nat), c < 65536 → crcBitIter n c < 65536
  | 0, _, h => h
  | n+1, c, h => by
    apply crcBitIter_lt n
    have hs : c >>> 1 < 65536 := by
      rw [Nat.shiftRight_one]
      omega
    by_cases hb : c &&& 1 = 1
    · simp only [hb, if_pos]
      have h16 : (65536 : Nat) = 2 ^ 16 := by norm_num
      rw [h16] at hs ⊢
      exact Nat.xor_lt_two_pow hs (by norm_num)
    · simp only [hb, if_neg, if_false]
      exact hs

set_option maxRecDepth 4096 in
lemma table_eq_bitIter :
    FramerRTU.crc16_table = (List.range 256).map (fun b => crcBitIter 8 b) := by
  decide

lemma getD_map_range (f : Nat → Nat) (i : Nat) (h : i < 256) :
    (((List.range 256).map f).getD i 0) = f i := by
  rw [List.getD_eq_getElem?_getD, List.getElem?_map, List.getElem?_range h]
  rfl

lemma xor_small_shiftRight8 (crc b : Nat) (hb : b < 256) :
    (crc ^^^ b) >>> 8 = crc >>> 8 := by
  apply Nat.eq_of_testBit_eq
  intro i
  rw [Nat.testBit_shiftRight, Nat.testBit_shiftRight, Nat.testBit_xor]
  have hbt : b.testBit (8 + i) = false := by
    apply Nat.testBit_lt_two_pow
    calc b < 256 := hb
      _ = 2 ^ 8 := by norm_num
      _ ≤ 2 ^ (8 + i) := Nat.pow_le_pow_right (by norm_num) (by omega)
  simp [hbt]

lemma crcStep_eq (crc b : Nat) (hcrc : crc < 65536) (hb : b < 256) :
    crcTableStep crc b = crcBitStep crc b := by
  rw [crcTableStep, crcBitStep, crcBitIter8_split (crc ^^^ b)]
  have h1 : (crc ^^^ b) >>> 8 = crc >>> 8 := xor_small_shiftRight8 crc b hb
  have h2 : (crc >>> 8) &&& 0xFF = crc >>> 8 := by
    show (crc >>> 8) &&& 255 = crc >>> 8
    rw [and255_eq_mod, Nat.shiftRight_eq_div_pow]
    norm_num
    omega
  have h3 : FramerRTU.crc16_table.getD ((crc ^^^ b) &&& 0xFF) 0
      = crcBitIter 8 ((crc ^^^ b) &&& 255) := by
    rw [table_eq_bitIter]
    apply getD_map_range
    rw [and255_eq_mod]
    omega
  rw [h1, h2, h3]

lemma crcBitStep_lt (crc b : Nat) (hcrc : crc < 65536) (hb : b < 256) :
    crcBitStep crc b < 65536 := by
  apply crcBitIter_lt
  have h16 : (65536 : Nat) = 2 ^ 16 := by norm_num
  rw [h16] at hcrc ⊢
  exact Nat.xor_lt_two_pow hcrc (by omega)

lemma fold_eq : ∀ (data : Bytes) (crc : Nat), crc < 65536 → (∀ b ∈ data, b < 256) →
    data.foldl crcTableStep crc = data.foldl crcBitStep crc
  | [], _, _, _ => rfl
  | b :: t, crc, hc, hb => by
    simp only [List.foldl_cons]
    rw [crcStep_eq crc b hc (hb b (List.mem_cons_self b t))]
    exact fold_eq t (crcBitStep crc b)
      (crcBitStep_lt crc b hc (hb b (List.mem_cons_self b t)))
      (fun x hx => hb x (List.mem_cons_of_mem b hx))

lemma foldBit_lt : ∀ (data : Bytes) (crc : Nat), crc < 65536 → (∀ b ∈ data, b < 256) →
    data.foldl crcBitStep crc < 65536
  | [], _, hc, _ => hc
  | b :: t, crc, hc, hb => by
    simp only [List.foldl_cons]
    exact foldBit_lt t (crcBitStep crc b)
      (crcBitStep_lt crc b hc (hb b (List.mem_cons_self b t)))
      (fun x hx => hb x (List.mem_cons_of_mem b hx))

lemma compute_CRC_lt (data : Bytes) : FramerRTU.compute_CRC data < 65536 := by
  unfold FramerRTU.compute_CRC
  have h16 : (65536 : Nat) = 2 ^ 16 := by norm_num
  rw [h16]
  apply Nat.or_lt_two_pow
  · calc (data.foldl crcTableStep 0xFFFF <<< 8) &&& 0xFF00 ≤ 0xFF00 := Nat.and_le_right
      _ < 2 ^ 16 := by norm_num
  · calc (data.foldl crcTableStep 0xFFFF >>> 8) &&& 0x00FF ≤ 0x00FF := Nat.and_le_right
      _ < 2 ^ 16 := by norm_num

lemma beBytes_one (n : Nat) : beBytes 1 n = [n % 256] := by
  simp [beBytes]

lemma beBytes_two (n : Nat) (h : n < 65536) : beBytes 2 n = [n / 256, n % 256] := by
  have h1 : n / 256 < 256 := by omega
  simp [beBytes, Nat.mod_eq_of_lt h1]

/-- C4: for every byte sequence, the table-driven `compute_CRC` equals the
bitwise reference CRC-16 (register seeded at 0xFFFF, each byte XORed into
the low byte, 8 shift-and-conditionally-XOR-0xA001 iterations per byte,
final result byte-swapped); the lookup table makes the per-byte table
update equivalent to the 8 bit iterations. -/
theorem C4_compute_CRC_eq_bitwise_spec (data : Bytes) (h : ∀ b ∈ data, b < 256) :
    FramerRTU.compute_CRC data = crc16_spec data := by
  unfold FramerRTU.compute_CRC crc16_spec
  rw [fold_eq data 0xFFFF (by norm_num) h]
  exact swap_formula_eq _ (foldBit_lt data 0xFFFF (by norm_num) h)

/-- Witness for C4 at the spec's reference vector `01 03 00 00 00 0A`. -/
theorem C4_witness :
    (∀ b ∈ ([1, 3, 0, 0, 0, 10] : Bytes), b < 256)
    ∧ FramerRTU.compute_CRC [1, 3, 0, 0, 0, 10] = crc16_spec [1, 3, 0, 0, 0, 10] :=
  ⟨by decide, C4_compute_CRC_eq_bitwise_spec [1, 3, 0, 0, 0, 10] (by decide)⟩

/-- C2: for every buffer of length at least `MIN_SIZE` (5), the excerpted
RTU decode returns zero consumed bytes and an empty payload -- it never
recognises a frame and never consumes bytes for hunting/resync. -/
theorem C2_rtu_decode_always_needs_more (data : Bytes) (h : 5 ≤ data.length) :
    FramerRTU.decode data = (0, 0, 0, []) := by
  unfold FramerRTU.decode
  rw [if_neg (by unfold FramerRTU.MIN_SIZE; omega)]

/-- Witness for C2 on a concrete 6-byte buffer. -/
theorem C2_witness :
    5 ≤ ([1, 2, 3, 4, 5, 6] : Bytes).length
    ∧ FramerRTU.decode [1, 2, 3, 4, 5, 6] = (0, 0, 0, []) :=
  ⟨by decide, C2_rtu_decode_always_needs_more [1, 2, 3, 4, 5, 6] (by decide)⟩

set_option maxRecDepth 4096 in
/-- C1: the claimed round-trip fails on the code.  At the concrete valid
input `payload = [3, 0]`, `device_id = 17`: `encode` produces a 5-byte
frame, yet `decode` on that exact frame returns `(0, 0, 0, b'')` -- not
`(len(encoded), payload)` as the claim states. -/
theorem C1_roundtrip_fails_at_concrete_input :
    (FramerRTU.encode [3, 0] 17 0).map FramerRTU.decode = some (0, 0, 0, [])
    ∧ (FramerRTU.encode [3, 0] 17 0).map List.length = some 5 := by
  constructor
  · decide
  · decide

/-- C6: any buffer shorter than 5 bytes yields zero consumed bytes and an
empty payload regardless of content, both at the generic gate
(`FramerBase.decode` with `MIN_SIZE = 5`, state untouched) and in the RTU
variant's own decode. -/
theorem C6_min_size_gate (sd : SpecificDecode) (s : FramerState) (data : Bytes)
    (h : data.length < 5) :
    FramerBase.decode 5 sd s data = (s, 0, []) ∧ FramerRTU.decode data = (0, 0, 0, []) := by
  constructor
  · unfold FramerBase.decode
    rw [if_pos h]
  · unfold FramerRTU.decode
    split <;> rfl

/-- Witness for C6 on a concrete 2-byte buffer. -/
theorem C6_witness :
    ([250, 251] : Bytes).length < 5
    ∧ (FramerBase.decode 5 sdNone ⟨3, 4, []⟩ [250, 251] = (⟨3, 4, []⟩, 0, [])
        ∧ FramerRTU.decode [250, 251] = (0, 0, 0, [])) :=
  ⟨by decide, C6_min_size_gate sdNone ⟨3, 4, []⟩ [250, 251] (by decide)⟩

/-- C5: for every payload and device id in 0..255, `encode` succeeds and
returns the device-id byte, the payload unchanged, and the 2-byte checksum
over device-id-plus-payload appended big-endian (after the byte swap that
`compute_CRC` already performs); the output length is `len(payload) + 3`. -/
theorem C5_encode_shape (pdu : Bytes) (device_id tid : Nat) (h : device_id < 256) :
    FramerRTU.encode pdu device_id tid
      = some (device_id :: pdu
          ++ [FramerRTU.compute_CRC (device_id :: pdu) / 256,
              FramerRTU.compute_CRC (device_id :: pdu) % 256])
    ∧ (device_id :: pdu
          ++ [FramerRTU.compute_CRC (device_id :: pdu) / 256,
              FramerRTU.compute_CRC (device_id :: pdu) % 256]).length = pdu.length + 3 := by
  have h1 : to_bytes_be 1 device_id = some [device_id] := by
    unfold to_bytes_be
    rw [if_pos (by norm_num; omega)]
    rw [beBytes_one, Nat.mod_eq_of_lt h]
  have h2 : to_bytes_be 2 (FramerRTU.compute_CRC (device_id :: pdu))
      = some [FramerRTU.compute_CRC (device_id :: pdu) / 256,
              FramerRTU.compute_CRC (device_id :: pdu) % 256] := by
    unfold to_bytes_be
    rw [if_pos (by norm_num; exact compute_CRC_lt _)]
    rw [beBytes_two _ (compute_CRC_lt _)]
  constructor
  · unfold FramerRTU.encode
    rw [h1]
    simp only [List.singleton_append]
    rw [h2]
  · simp

/-- Witness for C5 at `payload = [3, 0]`, `device_id = 17`. -/
theorem C5_witness :
    (17 : Nat) < 256
    ∧ (FramerRTU.encode [3, 0] 17 0
        = some (17 :: [3, 0]
            ++ [FramerRTU.compute_CRC (17 :: [3, 0]) / 256,
                FramerRTU.compute_CRC (17 :: [3, 0]) % 256])
      ∧ (17 :: [3, 0]
            ++ [FramerRTU.compute_CRC (17 :: [3, 0]) / 256,
                FramerRTU.compute_CRC (17 :: [3, 0]) % 256]).length = [3, 0].length + 3) :=
  ⟨by decide, C5_encode_shape [3, 0] 17 0 (by decide)⟩

/-- C3: `FramerRTU.decode` returns a 4-tuple while `processIncomingPacket`
unpacks the decode result into exactly two variables, so every call that
leaves the accumulated buffer non-empty raises a runtime unpacking
error (`ValueError`) before any frame is dispatched. -/
theorem C3_rtu_process_unpack_error (decoder_ok : Bytes → Bool) (fuel : Nat)
    (s : FramerState) (data : Bytes) (slave : List Nat) (tid : Nat)
    (h : s.databuffer ++ data ≠ []) :
    FramerRTU.processIncomingPacket decoder_ok (fuel+1) s data slave tid
      = .raised .valueError { s with databuffer := s.databuffer ++ data } [] := by
  have hstep : ∀ (st : FramerState), st.databuffer ≠ [] →
      FramerRTU.processLoop decoder_ok slave tid (fuel+1) st []
        = .raised .valueError st [] := by
    intro st hst
    unfold FramerRTU.processLoop
    rw [if_neg hst]
    rfl
  unfold FramerRTU.processIncomingPacket
  simp only
  rw [if_neg h]
  exact hstep _ h

/-- Witness for C3 on a concrete non-empty buffer. -/
theorem C3_witness :
    (⟨0, 0, []⟩ : FramerState).databuffer ++ [1, 2, 3] ≠ []
    ∧ FramerRTU.processIncomingPacket (fun _ => true) 4 ⟨0, 0, []⟩ [1, 2, 3] [0] 0
      = .raised .valueError ⟨0, 0, [1, 2, 3]⟩ [] :=
  ⟨by decide, C3_rtu_process_unpack_error (fun _ => true) 3 ⟨0, 0, []⟩ [1, 2, 3] [0] 0 (by decide)⟩

/-- C7 fails on the code: on the dispatch path `processIncomingPacket`
slices the buffer by `used_len` twice (base.py lines 100-101 and line 114).
With a `specific_decode` that recognises the first 5 bytes as a frame and a
10-byte buffer holding two such frames, the run consumes all 10 bytes while
dispatching only one frame, although every decode reported
`consumed_length = 5` and no whole-buffer-discard path was taken. -/
theorem C7_double_advance_at_concrete_input :
    processIncomingPacket 5 sdFixed5 (fun _ => true) 3 ⟨0, 0, []⟩
        [1, 2, 3, 4, 5, 6, 7, 8, 9, 10] [0] 0
      = .ok ⟨1, 0, []⟩ [([1, 2, 3, 4, 5], 1, 0)] := by
  decide

/-- C8 fails on the code as stated: on the needs-more-data outcome where
the buffer is shorter than `MIN_SIZE`, the generic decode returns before
the reset, leaving a stale correlation.  Concretely, with
`incoming_dev_id = 7`, `incoming_tid = 9` and a 2-byte buffer, decode
yields an empty payload yet the correlation is not `(0, 0)`. -/
theorem C8_counterexample_short_buffer_no_reset :
    (FramerBase.decode 5 sdNone ⟨7, 9, []⟩ [1, 2]).2.2 = []
    ∧ ¬ ((FramerBase.decode 5 sdNone ⟨7, 9, []⟩ [1, 2]).1.incoming_dev_id = 0
        ∧ (FramerBase.decode 5 sdNone ⟨7, 9, []⟩ [1, 2]).1.incoming_tid = 0) := by
  decide

/-- C8 amended: whenever the generic decode is called on a buffer of at
least `MIN_SIZE` bytes (so `specific_decode` actually runs) and yields no
frame (empty payload), the correlation state is reset to `(0, 0)` before
decode returns; on the shorter needs-more-data outcome the correlation is
left unchanged. -/
theorem C8_reset_on_empty_payload (min_size : Nat) (sd : SpecificDecode)
    (s : FramerState) (data : Bytes) (hlen : min_size ≤ data.length)
    (hempty : (FramerBase.decode min_size sd s data).2.2 = []) :
    (FramerBase.decode min_size sd s data).1.incoming_dev_id = 0
    ∧ (FramerBase.decode min_size sd s data).1.incoming_tid = 0 := by
  unfold FramerBase.decode at hempty ⊢
  rw [if_neg (Nat.not_lt.mpr hlen)] at hempty ⊢
  rcases hsd : sd s data data.length with ⟨s1, used_len, res_data⟩
  rw [hsd] at hempty
  dsimp only at hempty ⊢
  by_cases hr : res_data = []
  · rw [if_pos hr]
    exact ⟨rfl, rfl⟩
  · rw [if_neg hr] at hempty
    exact absurd hempty hr

/-- Witness for C8 (amended) at a 5-byte buffer with stale correlation
`(7, 9)` and a `specific_decode` returning no frame. -/
theorem C8_witness :
    5 ≤ ([1, 2, 3, 4, 5] : Bytes).length
    ∧ (FramerBase.decode 5 sdNone ⟨7, 9, []⟩ [1, 2, 3, 4, 5]).2.2 = []
    ∧ ((FramerBase.decode 5 sdNone ⟨7, 9, []⟩ [1, 2, 3, 4, 5]).1.incoming_dev_id = 0
        ∧ (FramerBase.decode 5 sdNone ⟨7, 9, []⟩ [1, 2, 3, 4, 5]).1.incoming_tid = 0) :=
  ⟨by decide, by decide,
    C8_reset_on_empty_payload 5 sdNone ⟨7, 9, []⟩ [1, 2, 3, 4, 5] (by decide) (by decide)⟩

/-- C9: when a decoded frame's payload is rejected by the message codec
(`decoder.decode` returns `None`), `processIncomingPacket` clears the whole
stream buffer and raises `ModbusIOException`, with no frame dispatched. -/
theorem C9_undecodable_clears_then_raises (min_size : Nat) (sd : SpecificDecode)
    (decoder_ok : Bytes → Bool) (slave : List Nat) (tid fuel : Nat)
    (s s1 : FramerState) (used_len : Nat) (payload data : Bytes)
    (hne : s.databuffer ++ data ≠ [])
    (hdec : FramerBase.decode min_size sd { s with databuffer := s.databuffer ++ data }
        (s.databuffer ++ data) = (s1, used_len, payload))
    (hp : payload ≠ [])
    (hfilter : ¬ (slave ≠ [] ∧ ¬ (0 ∈ slave) ∧ ¬ (s1.incoming_dev_id ∈ slave)))
    (hcodec : decoder_ok payload = false) :
    processIncomingPacket min_size sd decoder_ok (fuel+1) s data slave tid
      = .raised ⟨s1.incoming_dev_id, s1.incoming_tid, []⟩ [] := by
  have hdev : (if used_len ≠ 0 then { s1 with databuffer := s1.databuffer.drop used_len }
      else s1).incoming_dev_id = s1.incoming_dev_id := by
    split <;> rfl
  have htid : (if used_len ≠ 0 then { s1 with databuffer := s1.databuffer.drop used_len }
      else s1).incoming_tid = s1.incoming_tid := by
    split <;> rfl
  unfold processIncomingPacket
  dsimp only
  rw [if_neg hne]
  unfold processLoop
  dsimp only
  rw [if_neg hne, hdec]
  dsimp only
  rw [if_neg hp, hdev]
  rw [if_neg hfilter, if_pos hcodec, htid]

/-- Witness for C9: a 5-byte frame for device 7 whose payload the codec
rejects; the call raises with the buffer cleared and nothing dispatched. -/
theorem C9_witness :
    (⟨0, 0, []⟩ : FramerState).databuffer ++ [9, 9, 9, 9, 9] ≠ []
    ∧ processIncomingPacket 5 sdDev7 (fun _ => false) 1 ⟨0, 0, []⟩ [9, 9, 9, 9, 9] [0] 0
      = .raised ⟨7, 0, []⟩ [] :=
  ⟨by decide,
    C9_undecodable_clears_then_raises 5 sdDev7 (fun _ => false) [0] 0 0
      ⟨0, 0, []⟩ ⟨7, 0, [9, 9, 9, 9, 9]⟩ 5 [9, 9, 9, 9, 9] [9, 9, 9, 9, 9]
      (by decide) (by decide) (by decide) (by decide) (by decide)⟩

/-- C10: with a non-empty accepted-device set containing neither 0 nor the
decoded frame's device id, `processIncomingPacket` invokes the handler zero
times, discards the entire remaining buffer, and returns normally with the
buffer fully drained and no error. -/
theorem C10_device_filter_discards_all (min_size : Nat) (sd : SpecificDecode)
    (decoder_ok : Bytes → Bool) (slave : List Nat) (tid fuel : Nat)
    (s s1 : FramerState) (used_len : Nat) (payload data : Bytes)
    (hne : s.databuffer ++ data ≠ [])
    (hdec : FramerBase.decode min_size sd { s with databuffer := s.databuffer ++ data }
        (s.databuffer ++ data) = (s1, used_len, payload))
    (hp : payload ≠ [])
    (hslave : slave ≠ []) (h0 : ¬ (0 ∈ slave)) (hdev : ¬ (s1.incoming_dev_id ∈ slave)) :
    processIncomingPacket min_size sd decoder_ok (fuel+2) s data slave tid
      = .ok ⟨s1.incoming_dev_id, s1.incoming_tid, []⟩ [] := by
  have hdevEq : (if used_len ≠ 0 then { s1 with databuffer := s1.databuffer.drop used_len }
      else s1).incoming_dev_id = s1.incoming_dev_id := by
    split <;> rfl
  have htid : (if used_len ≠ 0 then { s1 with databuffer := s1.databuffer.drop used_len }
      else s1).incoming_tid = s1.incoming_tid := by
    split <;> rfl
  unfold processIncomingPacket
  dsimp only
  rw [if_neg hne]
  show processLoop min_size sd decoder_ok slave tid ((fuel+1)+1) _ [] = _
  unfold processLoop
  dsimp only
  rw [if_neg hne, hdec]
  dsimp only
  rw [if_neg hp, hdevEq]
  rw [if_pos ⟨hslave, h0, hdev⟩, htid]
  unfold processLoop
  rw [if_pos rfl]

/-- Witness for C10 with the spec's example: filter `{3}`, incoming frame
addressed to device 7. -/
theorem C10_witness :
    (⟨0, 0, []⟩ : FramerState).databuffer ++ [9, 9, 9, 9, 9] ≠ []
    ∧ processIncomingPacket 5 sdDev7 (fun _ => true) 3 ⟨0, 0, []⟩ [9, 9, 9, 9, 9] [3] 0
      = .ok ⟨7, 0, []⟩ [] :=
  ⟨by decide,
    C10_device_filter_discards_all 5 sdDev7 (fun _ => true) [3] 0 1
      ⟨0, 0, []⟩ ⟨7, 0, [9, 9, 9, 9, 9]⟩ 5 [9, 9, 9, 9, 9] [9, 9, 9, 9, 9]
      (by decide) (by decide) (by decide) (by decide) (by decide) (by decide)⟩
